import Mathlib

/-!
Verification of the Plausible-to-Fivetran connector (src/index.js).

The whole program is the single HTTP handler `syncWithPlausible`.  The
embedding below translates its pure decision logic:

* the Sync Planner — `range` (lines 99-101), `offset` (line 104) and the
  outbound query object (lines 108-126);
* the Checkpoint Advancer — `hasMore` (line 207) and the `newState`
  computation (lines 212-224);
* the reply shapes — success (lines 231-242), probe success (lines 75-79)
  and the three error replies (lines 40-44, 144-151, 251-259).

JavaScript-specific semantics are modelled explicitly: string truthiness
(`lastDateTime ? … : …`, `!plausibleApiKey`), the loose `lastOffset == null`
test, and the comparison `undefined > n` evaluating to false.  The network
fetch and the moment-timezone conversion of dimension strings are external
effects; a fetch outcome is passed in as data whose rows already carry the
converted UTC ISO-8601 timestamp strings.
-/

namespace PlausibleConnector

/-- Number of rows to fetch at once from Plausible (src/index.js line 27). -/
def PAGE_SIZE : Nat := 1000

/-- Timezone used by the Plausible dashboard (src/index.js line 23). -/
def REPORTING_TIMEZONE : String := "Europe/Berlin"

/-- JavaScript truthiness of an optional string value: `undefined` (here
`none`) and the empty string are falsy, every other string is truthy. -/
def jsTruthy : Option String → Bool
  | none => false
  | some s => s ≠ ""

/-- JavaScript `x > n` where `x` may be `undefined`: a comparison with
`undefined` coerces it to NaN and evaluates to false. -/
def jsGtNat : Option Nat → Nat → Bool
  | none, _ => false
  | some x, n => decide (n < x)

/-- The Fivetran state object (the spec calls it the Checkpoint): the fields
`lastDateTime` and `lastOffset` read at src/index.js lines 94-95. -/
structure SyncState where
  lastDateTime : Option String
  lastOffset : Option Nat
deriving DecidableEq, Repr

/-- The state object when the request carried no state (`{...undefined}`
spreads to `{}`). -/
def emptyState : SyncState := { lastDateTime := none, lastOffset := none }

/-- One output row (src/index.js lines 196-203).  `timestamp` is the UTC
ISO-8601 string produced by the timezone conversion; the five metric values
are opaque numbers, modelled as integers since no logic inspects them. -/
structure Row where
  timestamp : String
  visitors : Int
  pageviews : Int
  bounce_rate : Int
  visit_duration : Int
  visits : Int
deriving DecidableEq, Repr

/-- The `date_range` value sent to Plausible: either the string "all" or the
two-element array `[lastDateTime, now]` (src/index.js lines 99-101). -/
inductive DateRange where
  | all
  | window (startTime endTime : String)
deriving DecidableEq, Repr

/-- Window selection, src/index.js lines 99-101:
`lastDateTime ? [lastDateTime, new Date().toISOString()] : "all"`.
The condition is JavaScript truthiness, so the empty string selects "all". -/
def planRange (lastDateTime : Option String) (nowISO : String) : DateRange :=
  match lastDateTime with
  | some s => if s = "" then DateRange.all else DateRange.window s nowISO
  | none => DateRange.all

/-- Offset selection, src/index.js line 104:
`lastOffset == null ? 0 : lastOffset + PAGE_SIZE`.  The loose `== null` test
matches only `null`/`undefined` (here `none`), so `some 0` is a real offset. -/
def planOffset (lastOffset : Option Nat) : Nat :=
  match lastOffset with
  | none => 0
  | some k => k + PAGE_SIZE

/-- Pagination block of the outbound query (src/index.js lines 119-122). -/
structure Pagination where
  limit : Nat
  offset : Nat
deriving DecidableEq, Repr

/-- The Plausible v2 query object built at src/index.js lines 108-126. -/
structure PlausibleQuery where
  site_id : String
  date_range : DateRange
  metrics : List String
  dimensions : List String
  pagination : Pagination
  total_rows_requested : Bool
deriving DecidableEq, Repr

/-- The Sync Planner: builds the outbound query from the checkpoint
(src/index.js lines 94-126). -/
def buildPlausibleQuery (siteId : String) (state : SyncState) (nowISO : String) :
    PlausibleQuery :=
  { site_id := siteId
    date_range := planRange state.lastDateTime nowISO
    metrics := ["visitors", "visits", "pageviews", "bounce_rate", "visit_duration"]
    dimensions := ["time:hour"]
    pagination := { limit := PAGE_SIZE, offset := planOffset state.lastOffset }
    total_rows_requested := true }

/-- The parsed Plausible response body as far as the sync logic reads it
(src/index.js lines 166-168): the result rows (already pushed through the
transform of lines 186-204, so each carries its UTC timestamp string) and
the optional `meta.total_rows` count. -/
structure PlausibleData where
  results : List Row
  total_rows : Option Nat
deriving DecidableEq, Repr

/-- Comparator used at src/index.js line 219:
`(a, b) => a.timestamp.localeCompare(b.timestamp)`, i.e. rows ordered by
their timestamp strings. -/
def rowLe (a b : Row) : Prop := a.timestamp ≤ b.timestamp

instance : DecidableRel rowLe :=
  fun a b => inferInstanceAs (Decidable (a.timestamp ≤ b.timestamp))

instance : IsTotal Row rowLe := ⟨fun a b => le_total a.timestamp b.timestamp⟩

instance : IsTrans Row rowLe := ⟨fun _ _ _ h1 h2 => le_trans h1 h2⟩

/-- `rows.slice().sort((a, b) => a.timestamp.localeCompare(b.timestamp))`
(src/index.js lines 217-219), modelled as insertion sort under `rowLe`. -/
def sortedByDate (rows : List Row) : List Row :=
  List.insertionSort rowLe rows

/-- Result of the Checkpoint Advancer: the updated state and the
continuation flag. -/
structure AdvanceResult where
  newState : SyncState
  hasMore : Bool
deriving DecidableEq, Repr

/-- The Checkpoint Advancer, src/index.js lines 206-224:
`hasMore = totalRows > offset + PAGE_SIZE`; if more data remains keep the
state but record the offset just used; otherwise, if any rows came back,
set `lastDateTime` to the greatest row timestamp (last element of the
sorted copy) and delete `lastOffset`; otherwise pass the state through. -/
def advance (state : SyncState) (offset : Nat) (page : PlausibleData) :
    AdvanceResult :=
  let hasMore := jsGtNat page.total_rows (offset + PAGE_SIZE)
  let newState :=
    if hasMore then
      { state with lastOffset := some offset }
    else if page.results.length > 0 then
      { state with
          lastDateTime := ((sortedByDate page.results).getLast?).map Row.timestamp
          lastOffset := none }
    else
      state
  { newState := newState, hasMore := hasMore }

/-- The secrets block of the request body (src/index.js lines 35-36). -/
structure Secrets where
  plausibleApiKey : Option String
  siteId : Option String
deriving DecidableEq, Repr

/-- Outcome of the external `fetch` to the Plausible API: a parsed success
body, a non-ok HTTP response (status and body text), or a thrown error
(its `name`, `message` and split `stack`). -/
inductive FetchOutcome where
  | ok (data : PlausibleData)
  | httpError (status : Nat) (text : String)
  | thrown (name : Option String) (message : String) (stack : List String)
deriving DecidableEq, Repr

/-- A success reply to Fivetran.  `insert = none` models the empty object
`{}` of the probe reply (line 77); `insert = some rows` models
`{ plausible_timeseries: rows }` (lines 233-235).  `hasSchema` records
whether the reply carries the schema block of lines 236-240. -/
structure SuccessReply where
  state : SyncState
  insert : Option (List Row)
  hasSchema : Bool
  hasMore : Bool
deriving DecidableEq, Repr

/-- A structured error reply (src/index.js lines 40-44, 65-71, 144-151,
251-259).  `stackTrace = none` models the field being absent. -/
structure ErrorReply where
  status : Nat
  errorMessage : String
  errorType : String
  stackTrace : Option (List String)
deriving DecidableEq, Repr

/-- Every reply the handler can produce. -/
inductive Reply where
  | ok (r : SuccessReply)
  | err (e : ErrorReply)
deriving DecidableEq, Repr

/-- `error.name || "RuntimeError"` (src/index.js lines 85, 256): the thrown
error value may lack a `name`, and an empty name string is falsy. -/
def jsErrorName : Option String → String
  | some n => if n = "" then "RuntimeError" else n
  | none => "RuntimeError"

/-- The message built for a non-ok upstream response
(src/index.js lines 68, 147). -/
def apiFailMessage (status : Nat) : String :=
  s!"Plausible API request failed (status={status})"

/-- The HTTP handler `syncWithPlausible`, src/index.js lines 20-260, as a
function of the request fields it reads and the outcome of the single
external fetch it performs.  Secret validation (lines 39-44) happens first;
`setup_test` selects the probe branch (lines 48-89); otherwise the sync
branch plans, advances and replies (lines 94-250), with thrown errors
caught at lines 251-259. -/
def syncWithPlausible (state : Option SyncState) (secrets : Option Secrets)
    (setup_test : Bool) (nowISO : String) (fetch : FetchOutcome) : Reply :=
  let plausibleApiKey := secrets.bind Secrets.plausibleApiKey
  let siteId := secrets.bind Secrets.siteId
  if !jsTruthy plausibleApiKey || !jsTruthy siteId then
    Reply.err
      { status := 400
        errorMessage := "Missing \x27plausibleApiKey\x27 or \x27siteId\x27 secret!"
        errorType := "ConfigurationError"
        stackTrace := none }
  else if setup_test then
    match fetch with
    | FetchOutcome.ok _ =>
        Reply.ok
          { state := state.getD emptyState
            insert := none
            hasSchema := false
            hasMore := false }
    | FetchOutcome.httpError status text =>
        Reply.err
          { status := 500
            errorMessage := apiFailMessage status
            errorType := "PlausibleAPIError"
            stackTrace := some [text] }
    | FetchOutcome.thrown name message stack =>
        Reply.err
          { status := 500
            errorMessage := message
            errorType := jsErrorName name
            stackTrace := some stack }
  else
    match fetch with
    | FetchOutcome.ok data =>
        let st := state.getD emptyState
        let offset := planOffset st.lastOffset
        let a := advance st offset data
        Reply.ok
          { state := a.newState
            insert := some data.results
            hasSchema := true
            hasMore := a.hasMore }
    | FetchOutcome.httpError status text =>
        Reply.err
          { status := 500
            errorMessage := apiFailMessage status
            errorType := "PlausibleAPIError"
            stackTrace := some [text] }
    | FetchOutcome.thrown name message stack =>
        Reply.err
          { status := 500
            errorMessage := message
            errorType := jsErrorName name
            stackTrace := some stack }

/-- Row with the given timestamp and zeroed metrics, for concrete tests. -/
def mkRow (ts : String) : Row :=
  { timestamp := ts, visitors := 0, pageviews := 0, bounce_rate := 0
    visit_duration := 0, visits := 0 }

/-- Concrete valid secrets for concrete tests. -/
def validSecrets : Secrets :=
  { plausibleApiKey := some "key", siteId := some "site" }

end PlausibleConnector

namespace PlausibleConnector

/-- The last element of a sorted list bounds every element from above. -/
lemma sorted_le_getLast? :
    ∀ (l : List Row), l.Sorted rowLe → ∀ m, l.getLast? = some m →
      ∀ x ∈ l, x.timestamp ≤ m.timestamp := by
  intro l
  induction l with
  | nil => intro _ m hm; simp at hm
  | cons a t ih =>
    intro hs m hm x hx
    rw [List.sorted_cons] at hs
    cases t with
    | nil =>
      simp [List.getLast?] at hm
      rcases List.mem_singleton.mp hx with rfl
      rw [hm]
    | cons b t2 =>
      rw [List.getLast?_cons_cons] at hm
      rcases List.mem_cons.mp hx with rfl | hx2
      · have hmem : m ∈ b :: t2 := by
          have := List.getLast?_eq_getLast (b :: t2) (by simp)
          rw [this] at hm
          exact (Option.some.injEq _ _ ▸ hm) ▸ List.getLast_mem (by simp)
        exact hs.1 m hmem
      · exact ih hs.2 m hm x hx2

/-- `sortedByDate` permutes its input. -/
lemma sortedByDate_perm (l : List Row) : List.Perm (sortedByDate l) l :=
  List.perm_insertionSort rowLe l

/-- `sortedByDate` sorts by timestamp. -/
lemma sortedByDate_sorted (l : List Row) : (sortedByDate l).Sorted rowLe :=
  List.sorted_insertionSort rowLe l

/-- On a non-empty input, the last element of the sorted copy exists, comes
from the input, and carries the greatest timestamp — exactly the
`maxDateTime` picked at src/index.js line 220. -/
lemma sortedByDate_getLast?_max (l : List Row) (h : l ≠ []) :
    ∃ m, (sortedByDate l).getLast? = some m ∧ m ∈ l ∧
      ∀ x ∈ l, x.timestamp ≤ m.timestamp := by
  have hp := sortedByDate_perm l
  have hne : sortedByDate l ≠ [] := by
    intro h0
    rw [h0] at hp
    exact h hp.symm.eq_nil
  refine ⟨(sortedByDate l).getLast hne, List.getLast?_eq_getLast _ hne, ?_, ?_⟩
  · exact hp.mem_iff.mp (List.getLast_mem hne)
  · intro x hx
    exact sorted_le_getLast? _ (sortedByDate_sorted l) _
      (List.getLast?_eq_getLast _ hne) x (hp.mem_iff.mpr hx)

/-- Claim C1: for a numeric `totalRows`, the continuation flag computed by
the Checkpoint Advancer equals `totalRows > requestOffset + PAGE_SIZE`, and
in particular it is false when `totalRows` exactly equals
`requestOffset + PAGE_SIZE`. -/
theorem hasMore_exhaustion (state : SyncState) (offset : Nat) (rows : List Row)
    (t : Nat) :
    (advance state offset { results := rows, total_rows := some t }).hasMore
        = decide (offset + PAGE_SIZE < t) ∧
    (advance state offset
        { results := rows, total_rows := some (offset + PAGE_SIZE) }).hasMore
        = false := by
  constructor
  · simp [advance, jsGtNat]
  · simp [advance, jsGtNat]

/-- Claim C2: when `totalRows` strictly exceeds `requestOffset + PAGE_SIZE`,
`advance` reports more data, stores the requested offset itself (not
`offset + PAGE_SIZE`) in `lastOffset`, and leaves `lastDateTime` unchanged. -/
theorem advance_continue (state : SyncState) (offset : Nat) (rows : List Row)
    (t : Nat) (h : offset + PAGE_SIZE < t) :
    (advance state offset { results := rows, total_rows := some t }).hasMore
        = true ∧
    (advance state offset
        { results := rows, total_rows := some t }).newState.lastOffset
        = some offset ∧
    (advance state offset
        { results := rows, total_rows := some t }).newState.lastDateTime
        = state.lastDateTime := by
  simp [advance, jsGtNat, h]

/-- Witness for C2 at Scenario C figures: offset 1000, 2500 total rows. -/
theorem advance_continue_witness :
    (advance { lastDateTime := some "2024-01-01T00:00:00.000Z", lastOffset := none }
        1000 { results := [], total_rows := some 2500 }).hasMore = true ∧
    (advance { lastDateTime := some "2024-01-01T00:00:00.000Z", lastOffset := none }
        1000 { results := [], total_rows := some 2500 }).newState.lastOffset
        = some 1000 ∧
    (advance { lastDateTime := some "2024-01-01T00:00:00.000Z", lastOffset := none }
        1000 { results := [], total_rows := some 2500 }).newState.lastDateTime
        = ({ lastDateTime := some "2024-01-01T00:00:00.000Z", lastOffset := none } :
            SyncState).lastDateTime :=
  advance_continue _ 1000 [] 2500 (by decide)

/-- Claim C3: when a numeric `totalRows` is at most `requestOffset +
PAGE_SIZE` and the page is non-empty, `advance` reports no more data,
deletes `lastOffset`, and sets `lastDateTime` to the greatest timestamp
among the returned rows. -/
theorem advance_window_complete (state : SyncState) (offset : Nat)
    (page : PlausibleData) (t : Nat) (htot : page.total_rows = some t)
    (hle : t ≤ offset + PAGE_SIZE) (hne : page.results ≠ []) :
    (advance state offset page).hasMore = false ∧
    (advance state offset page).newState.lastOffset = none ∧
    ∃ m, (advance state offset page).newState.lastDateTime = some m.timestamp ∧
      m ∈ page.results ∧ ∀ x ∈ page.results, x.timestamp ≤ m.timestamp := by
  have hflag : jsGtNat page.total_rows (offset + PAGE_SIZE) = false := by
    rw [htot]
    simp [jsGtNat]
    omega
  have hlen : 0 < page.results.length := List.length_pos.mpr hne
  obtain ⟨m, h1, h2, h3⟩ := sortedByDate_getLast?_max page.results hne
  refine ⟨?_, ?_, m, ?_, h2, h3⟩
  · simp [advance, hflag]
  · simp [advance, hflag, hlen]
  · simp [advance, hflag, hlen, h1]

/-- Witness for C3 at Scenario D figures: offset 2000, 2500 total rows,
three rows whose greatest timestamp is 2024-01-02T05:00:00Z. -/
theorem advance_window_complete_witness :
    (advance { lastDateTime := some "2024-01-01T00:00:00Z", lastOffset := some 1000 }
        2000
        { results := [mkRow "2024-01-02T03:00:00Z", mkRow "2024-01-02T05:00:00Z",
            mkRow "2024-01-02T04:00:00Z"], total_rows := some 2500 }).hasMore
        = false ∧
    (advance { lastDateTime := some "2024-01-01T00:00:00Z", lastOffset := some 1000 }
        2000
        { results := [mkRow "2024-01-02T03:00:00Z", mkRow "2024-01-02T05:00:00Z",
            mkRow "2024-01-02T04:00:00Z"], total_rows := some 2500 }).newState.lastOffset
        = none ∧
    ∃ m, (advance { lastDateTime := some "2024-01-01T00:00:00Z", lastOffset := some 1000 }
        2000
        { results := [mkRow "2024-01-02T03:00:00Z", mkRow "2024-01-02T05:00:00Z",
            mkRow "2024-01-02T04:00:00Z"], total_rows := some 2500 }).newState.lastDateTime
        = some m.timestamp ∧
      m ∈ [mkRow "2024-01-02T03:00:00Z", mkRow "2024-01-02T05:00:00Z",
            mkRow "2024-01-02T04:00:00Z"] ∧
      ∀ x ∈ [mkRow "2024-01-02T03:00:00Z", mkRow "2024-01-02T05:00:00Z",
            mkRow "2024-01-02T04:00:00Z"], x.timestamp ≤ m.timestamp :=
  advance_window_complete _ 2000 _ 2500 rfl (by decide) (by decide)

/-- Claim C6 counterexample: a continuation step stores `lastOffset = 0`;
the next step sees an exhausted, empty page, reports `hasMore = false`, yet
returns the state with `lastOffset` still present — refuting the invariant
that completion always clears `pendingOffset`. -/
theorem pendingOffset_invariant_counterexample :
    (advance { lastDateTime := none, lastOffset := none } 0
        { results := [mkRow "2024-01-01T10:00:00.000Z"], total_rows := some 5000 }).newState
        = { lastDateTime := none, lastOffset := some 0 } ∧
    (advance { lastDateTime := none, lastOffset := some 0 } 1000
        { results := [], total_rows := some 500 }).hasMore = false ∧
    (advance { lastDateTime := none, lastOffset := some 0 } 1000
        { results := [], total_rows := some 500 }).newState.lastOffset
        = some 0 := by
  refine ⟨?_, rfl, rfl⟩
  simp [advance, jsGtNat, PAGE_SIZE]

/-- Claim C6 amended: a step that observes `hasMore = true` stores the
requested offset; a step that completes a window with at least one row
clears `lastOffset`; but a step that completes with zero rows passes the
state through untouched, so a stale `lastOffset` can survive completion. -/
theorem pendingOffset_lifecycle (state : SyncState) (offset : Nat)
    (page : PlausibleData) :
    ((advance state offset page).hasMore = true →
        (advance state offset page).newState.lastOffset = some offset) ∧
    ((advance state offset page).hasMore = false → page.results ≠ [] →
        (advance state offset page).newState.lastOffset = none) ∧
    ((advance state offset page).hasMore = false → page.results = [] →
        (advance state offset page).newState = state) := by
  cases hflag : jsGtNat page.total_rows (offset + PAGE_SIZE) with
  | false =>
    refine ⟨?_, ?_, ?_⟩
    · intro h
      simp [advance, hflag] at h
    · intro _ hne
      have hlen : 0 < page.results.length := List.length_pos.mpr hne
      simp [advance, hflag, hlen]
    · intro _ hnil
      simp [advance, hflag, hnil]
  | true =>
    refine ⟨?_, ?_, ?_⟩
    · intro _
      simp [advance, hflag]
    · intro h
      simp [advance, hflag] at h
    · intro h
      simp [advance, hflag] at h

/-- Witness for the amended C6 on concrete pages. -/
theorem pendingOffset_lifecycle_witness :
    (advance { lastDateTime := none, lastOffset := none } 0
        { results := [], total_rows := some 5000 }).newState.lastOffset
        = some 0 ∧
    (advance { lastDateTime := none, lastOffset := some 0 } 1000
        { results := [mkRow "2024-01-02T05:00:00.000Z"], total_rows := some 500 }).newState.lastOffset
        = none ∧
    (advance { lastDateTime := none, lastOffset := some 0 } 1000
        { results := [], total_rows := some 500 }).newState
        = { lastDateTime := none, lastOffset := some 0 } :=
  ⟨(pendingOffset_lifecycle _ 0 _).1 (by decide),
   (pendingOffset_lifecycle _ 1000 _).2.1 (by decide) (by decide),
   (pendingOffset_lifecycle _ 1000 _).2.2 (by decide) (by decide)⟩

/-- Claim C7 counterexample: with `totalRows` absent and a non-empty page,
`advance` still reports `hasMore = false` and silently commits the max row
timestamp as the new watermark — refuting the claim that exhaustion on a
missing count is reported only for an empty page. -/
theorem missing_total_rows_counterexample :
    (advance { lastDateTime := some "2024-01-01T00:00:00.000Z", lastOffset := none } 0
        { results := [mkRow "2024-01-02T05:00:00.000Z"], total_rows := none }).hasMore
        = false ∧
    (advance { lastDateTime := some "2024-01-01T00:00:00.000Z", lastOffset := none } 0
        { results := [mkRow "2024-01-02T05:00:00.000Z"], total_rows := none }).newState.lastDateTime
        = some "2024-01-02T05:00:00.000Z" := by
  refine ⟨rfl, ?_⟩
  simp [advance, jsGtNat, sortedByDate, List.insertionSort, mkRow]

/-- Claim C7 amended: when `totalRows` is missing, `advance` always reports
`hasMore = false`, whatever the page; and when the page is non-empty it
commits the greatest row timestamp as the watermark and clears the offset. -/
theorem advance_missing_total_rows (state : SyncState) (offset : Nat)
    (rows : List Row) :
    (advance state offset { results := rows, total_rows := none }).hasMore
        = false ∧
    (rows ≠ [] →
      (advance state offset { results := rows, total_rows := none }).newState.lastOffset
          = none ∧
      ∃ m, (advance state offset
              { results := rows, total_rows := none }).newState.lastDateTime
          = some m.timestamp ∧
        m ∈ rows ∧ ∀ x ∈ rows, x.timestamp ≤ m.timestamp) := by
  refine ⟨rfl, ?_⟩
  intro hne
  have hlen : 0 < rows.length := List.length_pos.mpr hne
  obtain ⟨m, h1, h2, h3⟩ := sortedByDate_getLast?_max rows hne
  refine ⟨?_, m, ?_, h2, h3⟩
  · simp [advance, jsGtNat, hlen]
  · simp [advance, jsGtNat, hlen, h1]

/-- Witness for the amended C7 on a concrete two-row page. -/
theorem advance_missing_total_rows_witness :
    (advance { lastDateTime := none, lastOffset := none } 0
        { results := [mkRow "2024-01-02T04:00:00Z", mkRow "2024-01-02T05:00:00Z"],
          total_rows := none }).hasMore = false ∧
    ((advance { lastDateTime := none, lastOffset := none } 0
        { results := [mkRow "2024-01-02T04:00:00Z", mkRow "2024-01-02T05:00:00Z"],
          total_rows := none }).newState.lastOffset = none ∧
      ∃ m, (advance { lastDateTime := none, lastOffset := none } 0
            { results := [mkRow "2024-01-02T04:00:00Z", mkRow "2024-01-02T05:00:00Z"],
              total_rows := none }).newState.lastDateTime = some m.timestamp ∧
        m ∈ [mkRow "2024-01-02T04:00:00Z", mkRow "2024-01-02T05:00:00Z"] ∧
        ∀ x ∈ [mkRow "2024-01-02T04:00:00Z", mkRow "2024-01-02T05:00:00Z"],
          x.timestamp ≤ m.timestamp) :=
  ⟨(advance_missing_total_rows { lastDateTime := none, lastOffset := none } 0
      [mkRow "2024-01-02T04:00:00Z", mkRow "2024-01-02T05:00:00Z"]).1,
   (advance_missing_total_rows { lastDateTime := none, lastOffset := none } 0
      [mkRow "2024-01-02T04:00:00Z", mkRow "2024-01-02T05:00:00Z"]).2 (by decide)⟩

/-- Claim C4: the planned offset is 0 when `lastOffset` is absent and
`k + PAGE_SIZE` when `lastOffset = k`, including `k = 0`. -/
theorem planOffset_spec :
    planOffset none = 0 ∧
    (∀ k : Nat, planOffset (some k) = k + PAGE_SIZE) ∧
    planOffset (some 0) = PAGE_SIZE := by
  refine ⟨rfl, fun k => rfl, ?_⟩
  simp [planOffset]

/-- Claim C5 counterexample: `lastDateTime` present as the empty string is
not absent, yet the planner selects the sentinel "all" rather than the pair
window the claim promises for every present value. -/
theorem planRange_present_empty_counterexample :
    planRange (some "") "2024-06-01T00:00:00.000Z" = DateRange.all ∧
    planRange (some "") "2024-06-01T00:00:00.000Z"
        ≠ DateRange.window "" "2024-06-01T00:00:00.000Z" := by
  refine ⟨rfl, ?_⟩
  decide

/-- Claim C5 amended: the window is the sentinel "all" when `lastDateTime`
is absent or the empty string (JavaScript-falsy); for any other present
value it is the pair of that value and the wall-clock instant. -/
theorem planRange_window_selection (lastDateTime : Option String)
    (nowISO : String) :
    ((lastDateTime = none ∨ lastDateTime = some "") →
        planRange lastDateTime nowISO = DateRange.all) ∧
    (∀ s, lastDateTime = some s → s ≠ "" →
        planRange lastDateTime nowISO = DateRange.window s nowISO) := by
  constructor
  · rintro (rfl | rfl) <;> rfl
  · rintro s rfl hs
    simp [planRange, hs]

/-- Witness for the amended C5 at an absent and at a truthy timestamp. -/
theorem planRange_window_selection_witness :
    planRange none "2024-06-01T00:00:00.000Z" = DateRange.all ∧
    planRange (some "2024-01-01T00:00:00.000Z") "2024-06-01T00:00:00.000Z"
        = DateRange.window "2024-01-01T00:00:00.000Z" "2024-06-01T00:00:00.000Z" :=
  ⟨(planRange_window_selection none "2024-06-01T00:00:00.000Z").1 (Or.inl rfl),
   (planRange_window_selection (some "2024-01-01T00:00:00.000Z")
      "2024-06-01T00:00:00.000Z").2 "2024-01-01T00:00:00.000Z" rfl (by decide)⟩

/-- Claim C8 counterexample: an upstream non-success status produces the
errorType "PlausibleAPIError", which is not in the claimed set
consisting of ConfigurationError, UpstreamAPIError and RuntimeError. -/
theorem errorType_set_counterexample :
    syncWithPlausible none (some validSecrets) false "2024-06-01T00:00:00.000Z"
        (FetchOutcome.httpError 403 "forbidden")
      = Reply.err
          { status := 500
            errorMessage := "Plausible API request failed (status=403)"
            errorType := "PlausibleAPIError"
            stackTrace := some ["forbidden"] } ∧
    ("PlausibleAPIError" : String)
        ∉ (["ConfigurationError", "UpstreamAPIError", "RuntimeError"] :
            List String) := by
  constructor
  · rfl
  · decide

/-- Claim C8 amended: every error reply carries errorType
"ConfigurationError" (a required secret missing or falsy),
"PlausibleAPIError" (upstream non-success status), or the thrown error
name with fallback "RuntimeError" when that name is absent or empty. -/
theorem errorType_classification (state : Option SyncState)
    (secrets : Option Secrets) (setup_test : Bool) (nowISO : String)
    (fetch : FetchOutcome) (e : ErrorReply)
    (h : syncWithPlausible state secrets setup_test nowISO fetch = Reply.err e) :
    e.errorType = "ConfigurationError" ∨ e.errorType = "PlausibleAPIError" ∨
    (∃ name message stack, fetch = FetchOutcome.thrown name message stack ∧
      e.errorType = jsErrorName name) := by
  by_cases hsec : (!jsTruthy (secrets.bind Secrets.plausibleApiKey)
      || !jsTruthy (secrets.bind Secrets.siteId)) = true
  · left
    simp only [syncWithPlausible, hsec, if_true] at h
    cases h
    rfl
  · cases fetch with
    | ok data =>
      exfalso
      cases setup_test with
      | false => simp [syncWithPlausible, hsec] at h
      | true => simp [syncWithPlausible, hsec] at h
    | httpError status text =>
      right; left
      cases setup_test with
      | false =>
        simp only [syncWithPlausible, hsec, Bool.false_eq_true, if_false] at h
        cases h
        rfl
      | true =>
        simp only [syncWithPlausible, hsec, Bool.false_eq_true, if_false,
          if_true] at h
        cases h
        rfl
    | thrown name message stack =>
      right; right
      refine ⟨name, message, stack, rfl, ?_⟩
      cases setup_test with
      | false =>
        simp only [syncWithPlausible, hsec, Bool.false_eq_true, if_false] at h
        cases h
        rfl
      | true =>
        simp only [syncWithPlausible, hsec, Bool.false_eq_true, if_false,
          if_true] at h
        cases h
        rfl

/-- Witness for the amended C8 at a missing-secret invocation. -/
theorem errorType_classification_witness :
    ({ status := 400
       errorMessage := "Missing \x27plausibleApiKey\x27 or \x27siteId\x27 secret!"
       errorType := "ConfigurationError"
       stackTrace := none } : ErrorReply).errorType = "ConfigurationError" ∨
    ({ status := 400
       errorMessage := "Missing \x27plausibleApiKey\x27 or \x27siteId\x27 secret!"
       errorType := "ConfigurationError"
       stackTrace := none } : ErrorReply).errorType = "PlausibleAPIError" ∨
    (∃ name message stack,
      FetchOutcome.ok { results := [], total_rows := none }
          = FetchOutcome.thrown name message stack ∧
      ({ status := 400
         errorMessage := "Missing \x27plausibleApiKey\x27 or \x27siteId\x27 secret!"
         errorType := "ConfigurationError"
         stackTrace := none } : ErrorReply).errorType = jsErrorName name) :=
  errorType_classification none none false "2024-06-01T00:00:00.000Z"
    (FetchOutcome.ok { results := [], total_rows := none })
    { status := 400
      errorMessage := "Missing \x27plausibleApiKey\x27 or \x27siteId\x27 secret!"
      errorType := "ConfigurationError"
      stackTrace := none }
    rfl

/-- Claim C9: a connectivity probe (`setup_test` true) with truthy secrets
and a successful upstream check replies with the caller's state echoed
unchanged, an empty insert object, no schema block and `hasMore = false` —
no checkpoint mutation. -/
theorem setup_test_probe (s : SyncState) (secrets : Secrets) (nowISO : String)
    (data : PlausibleData)
    (hk : jsTruthy secrets.plausibleApiKey = true)
    (hs : jsTruthy secrets.siteId = true) :
    syncWithPlausible (some s) (some secrets) true nowISO (FetchOutcome.ok data)
      = Reply.ok
          { state := s, insert := none, hasSchema := false, hasMore := false } := by
  simp [syncWithPlausible, Option.bind, hk, hs]

/-- Witness for C9 with concrete secrets and a non-empty prior state. -/
theorem setup_test_probe_witness :
    syncWithPlausible
        (some { lastDateTime := some "2024-01-01T00:00:00.000Z", lastOffset := some 0 })
        (some validSecrets) true "2024-06-01T00:00:00.000Z"
        (FetchOutcome.ok { results := [], total_rows := none })
      = Reply.ok
          { state := { lastDateTime := some "2024-01-01T00:00:00.000Z",
                       lastOffset := some 0 }
            insert := none, hasSchema := false, hasMore := false } :=
  setup_test_probe
    { lastDateTime := some "2024-01-01T00:00:00.000Z", lastOffset := some 0 }
    validSecrets "2024-06-01T00:00:00.000Z"
    { results := [], total_rows := none } (by decide) (by decide)

/-- Claim C10: the window test is JavaScript truthiness, so a present but
empty `lastDateTime` selects the "all" window exactly as absence does,
while the offset test is `== null`, so `lastOffset = 0` is honored as a
real offset and advanced to `PAGE_SIZE`. -/
theorem falsy_presence_semantics (nowISO : String) (k : Nat) :
    planRange (some "") nowISO = DateRange.all ∧
    planRange none nowISO = DateRange.all ∧
    planRange (some "") nowISO = planRange none nowISO ∧
    planOffset (some 0) = PAGE_SIZE ∧
    planOffset (some k) = k + PAGE_SIZE ∧
    planOffset none = 0 := by
  refine ⟨rfl, rfl, rfl, ?_, rfl, rfl⟩
  simp [planOffset]

end PlausibleConnector
